import Mathlib

/-
Shallow embedding of the bevy_pancam fork (src/src/lib.rs): a 2D camera
pan/zoom plugin. The two per-frame systems, camera_zoom and camera_movement,
are modelled as pure functions over explicit state. f32 values are modelled
as exact rationals; the literal 0.001 is 1/1000 and pixels_per_line is 100,
as in the source. A missing primary window (the unguarded unwrap) is
modelled by Option-returning wrappers where none stands for the panic.
-/

namespace BevyPanCam

/-- Two-component vector of rationals, modelling bevy Vec2. -/
structure Vec2 where
  x : ℚ
  y : ℚ
  deriving DecidableEq, Repr

/-- Three-component vector of rationals, modelling bevy Vec3. -/
structure Vec3 where
  x : ℚ
  y : ℚ
  z : ℚ
  deriving DecidableEq, Repr

instance : Add Vec2 := ⟨fun a b => ⟨a.x + b.x, a.y + b.y⟩⟩

instance : Sub Vec2 := ⟨fun a b => ⟨a.x - b.x, a.y - b.y⟩⟩

instance : Mul Vec2 := ⟨fun a b => ⟨a.x * b.x, a.y * b.y⟩⟩

instance : Div Vec2 := ⟨fun a b => ⟨a.x / b.x, a.y / b.y⟩⟩

instance : HMul Vec2 ℚ Vec2 := ⟨fun a s => ⟨a.x * s, a.y * s⟩⟩

instance : Sub Vec3 := ⟨fun a b => ⟨a.x - b.x, a.y - b.y, a.z - b.z⟩⟩

/-- Vec2::ONE. -/
def Vec2.one : Vec2 := ⟨1, 1⟩

/-- Vec3::truncate: drop the z component. -/
def Vec3.truncate (v : Vec3) : Vec2 := ⟨v.x, v.y⟩

/-- Vec2::extend: append a z component. -/
def Vec2.extend (v : Vec2) (z : ℚ) : Vec3 := ⟨v.x, v.y, z⟩

/-- Mouse buttons, modelling bevy MouseButton. -/
inductive MouseButton where
  | Left
  | Right
  | Middle
  | Other (id : Nat)
  deriving DecidableEq, Repr

/-- Scroll event unit tag, modelling bevy MouseScrollUnit. -/
inductive MouseScrollUnit where
  | Pixel
  | Line
  deriving DecidableEq, Repr

/-- A mouse-wheel event; only the unit and the y amount are read by the source. -/
structure MouseWheel where
  unit : MouseScrollUnit
  y : ℚ
  deriving DecidableEq, Repr

/-- The primary window: dimensions and the (optional) cursor position. -/
structure Window where
  width : ℚ
  height : ℚ
  cursor_position : Option Vec2
  deriving DecidableEq, Repr

/-- The PanCam settings component. -/
structure PanCam where
  grab_buttons : List MouseButton
  enabled : Bool
  zoom_to_cursor : Bool
  min_scale : ℚ
  max_scale : Option ℚ
  deriving DecidableEq, Repr

/-- Default for PanCam, as in the source impl Default. -/
def PanCam.default : PanCam :=
  { grab_buttons := [MouseButton.Left, MouseButton.Right, MouseButton.Middle]
    enabled := true
    zoom_to_cursor := true
    min_scale := 1 / 100000
    max_scale := none }

/-- The orthographic projection fields the source reads or writes. -/
structure OrthographicProjection where
  scale : ℚ
  left : ℚ
  right : ℚ
  top : ℚ
  bottom : ℚ
  deriving DecidableEq, Repr

/-- A world transform; only translation is used. -/
structure Transform where
  translation : Vec3
  deriving DecidableEq, Repr

/-- One queried camera entity for the zoom system, in source query order. -/
abbrev ZoomItem := PanCam × OrthographicProjection × Transform

/-- One queried camera entity for the movement system, in source query order. -/
abbrev MoveItem := PanCam × Transform × OrthographicProjection

/-- The fixed pixels-per-line constant from camera_zoom. -/
def pixels_per_line : ℚ := 100

/-- Summed scroll delta: line events scaled by pixels_per_line, then summed. -/
def scrollSum (scroll_events : List MouseWheel) : ℚ :=
  (scroll_events.map (fun ev =>
    match ev.unit with
    | MouseScrollUnit.Pixel => ev.y
    | MouseScrollUnit.Line => ev.y * pixels_per_line)).sum

/-- The two sequential clamping assignments of camera_zoom: multiply by
the zoom factor, floor at min_scale, then cap at max_scale if present. -/
def zoomedScale (cam : PanCam) (scroll old_scale : ℚ) : ℚ :=
  let scale1 := max (old_scale * (1 + -scroll * (1 / 1000))) cam.min_scale
  match cam.max_scale with
  | some max_scale => min scale1 max_scale
  | none => scale1

/-- Normalized cursor position computed by camera_zoom from the window. -/
def mouseNormalizedScreenPos (window : Window) : Option Vec2 :=
  window.cursor_position.map (fun cursor_pos =>
    (cursor_pos / ⟨window.width, window.height⟩) * (2 : ℚ) - Vec2.one)

/-- The loop body of camera_zoom for one queried camera. -/
def zoomCam (scroll : ℚ) (mouse_normalized_screen_pos : Option Vec2)
    (item : ZoomItem) : ZoomItem :=
  let (cam, proj, pos) := item
  if cam.enabled then
    let old_scale := proj.scale
    let proj1 : OrthographicProjection :=
      { proj with scale := zoomedScale cam scroll proj.scale }
    match mouse_normalized_screen_pos, cam.zoom_to_cursor with
    | some mnsp, true =>
      let proj_size : Vec2 := ⟨proj1.right, proj1.top⟩
      let mouse_world_pos := pos.translation.truncate + mnsp * proj_size * old_scale
      (cam, proj1,
        { pos with translation :=
            (mouse_world_pos - mnsp * proj_size * proj1.scale).extend pos.translation.z })
    | _, _ => (cam, proj1, pos)
  else item

/-- camera_zoom given a present primary window: early return on zero summed
scroll, else apply the per-camera zoom to every queried camera. -/
def camera_zoom (query : List ZoomItem) (scroll_events : List MouseWheel)
    (window : Window) : List ZoomItem :=
  let scroll := scrollSum scroll_events
  if scroll = 0 then query
  else query.map (zoomCam scroll (mouseNormalizedScreenPos window))

/-- camera_zoom with the egui guard and the fallible primary-window lookup:
none models the panic of the unguarded unwrap. -/
def camera_zoomRun (query : List ZoomItem) (scroll_events : List MouseWheel)
    (windows : Option Window) (uiWantsInput : Bool) : Option (List ZoomItem) :=
  if uiWantsInput then some query
  else if scrollSum scroll_events = 0 then some query
  else
    match windows with
    | none => none
    | some window => some (camera_zoom query scroll_events window)

/-- The loop body of camera_movement for one queried camera. -/
def panCam (window : Window) (mouse_buttons : List MouseButton) (delta : Vec2)
    (item : MoveItem) : MoveItem :=
  let (cam, transform, projection) := item
  if cam.enabled && cam.grab_buttons.any (fun btn => mouse_buttons.contains btn) then
    let scaling : Vec2 :=
      (⟨window.width / (projection.right - projection.left),
        window.height / (projection.top - projection.bottom)⟩ : Vec2) * projection.scale
    (cam,
      { transform with translation := transform.translation - (delta * scaling).extend 0 },
      projection)
  else item

/-- camera_movement given a present primary window: early return when the
cursor is absent, else pan each grabbing camera and remember the position. -/
def camera_movement (window : Window) (mouse_buttons : List MouseButton)
    (query : List MoveItem) (last_pos : Option Vec2) :
    List MoveItem × Option Vec2 :=
  match window.cursor_position with
  | none => (query, last_pos)
  | some current_pos =>
    let delta := current_pos - last_pos.getD current_pos
    (query.map (panCam window mouse_buttons delta), some current_pos)

/-- camera_movement with the egui guard and the fallible primary-window
lookup: none models the panic of the unguarded unwrap. -/
def camera_movementRun (windows : Option Window) (mouse_buttons : List MouseButton)
    (query : List MoveItem) (last_pos : Option Vec2) (uiWantsInput : Bool) :
    Option (List MoveItem × Option Vec2) :=
  if uiWantsInput then some (query, none)
  else
    match windows with
    | none => none
    | some window => some (camera_movement window mouse_buttons query last_pos)

/-- One whole zoom frame acting on a single queried camera. -/
def zoomFrame (scroll_events : List MouseWheel) (window : Window)
    (item : ZoomItem) : ZoomItem :=
  if scrollSum scroll_events = 0 then item
  else zoomCam (scrollSum scroll_events) (mouseNormalizedScreenPos window) item

/-- A sequence of zoom frames folded over a single queried camera. -/
def runZoomFrames (frames : List (List MouseWheel × Window)) (item : ZoomItem) :
    ZoomItem :=
  frames.foldl (fun it f => zoomFrame f.1 f.2 it) item

/-! ### Concrete configurations used by counterexamples, scenarios and witnesses -/

/-- An enabled camera misconfigured with max_scale below min_scale. -/
def camC1 : PanCam :=
  { grab_buttons := [], enabled := true, zoom_to_cursor := false,
    min_scale := 2, max_scale := some 1 }

def projC1 : OrthographicProjection :=
  { scale := 1, left := -1, right := 1, top := 1, bottom := -1 }

def tC1 : Transform := ⟨⟨0, 0, 0⟩⟩

/-- An enabled camera with a well-formed min/max configuration. -/
def camC2 : PanCam :=
  { grab_buttons := [], enabled := true, zoom_to_cursor := false,
    min_scale := 1 / 2, max_scale := some 3 }

def wC2 : Window := ⟨800, 600, none⟩

def framesC2 : List (List MouseWheel × Window) :=
  [([⟨MouseScrollUnit.Line, 1⟩], wC2), ([⟨MouseScrollUnit.Pixel, -2000⟩], wC2)]

/-- An enabled camera already sitting at its min_scale. -/
def camC3 : PanCam :=
  { grab_buttons := [], enabled := true, zoom_to_cursor := false,
    min_scale := 1, max_scale := none }

def projC3 : OrthographicProjection :=
  { scale := 2, left := -1, right := 1, top := 1, bottom := -1 }

/-- An enabled zoom-to-cursor camera for the fixed-point witness. -/
def camC4 : PanCam :=
  { grab_buttons := [], enabled := true, zoom_to_cursor := true,
    min_scale := 1 / 100000, max_scale := none }

def projC6 : OrthographicProjection :=
  { scale := 1, left := -400, right := 400, top := 300, bottom := -300 }

def tC6 : Transform := ⟨⟨12, -3, 4⟩⟩

def wC6 : Window := ⟨800, 600, some ⟨400, 300⟩⟩

def wC5 : Window := ⟨800, 600, some ⟨110, 105⟩⟩

/-- The default settings with the camera disabled. -/
def camC7 : PanCam :=
  { grab_buttons := [MouseButton.Left, MouseButton.Right, MouseButton.Middle],
    enabled := false, zoom_to_cursor := true,
    min_scale := 1 / 100000, max_scale := none }

def wC8 : Window := ⟨1024, 768, none⟩

/-! ### Helper lemmas -/

@[simp] theorem Vec2.add_def (a b : Vec2) : a + b = ⟨a.x + b.x, a.y + b.y⟩ := rfl

@[simp] theorem Vec2.sub_def (a b : Vec2) : a - b = ⟨a.x - b.x, a.y - b.y⟩ := rfl

@[simp] theorem Vec2.mul_def (a b : Vec2) : a * b = ⟨a.x * b.x, a.y * b.y⟩ := rfl

@[simp] theorem Vec2.div_def (a b : Vec2) : a / b = ⟨a.x / b.x, a.y / b.y⟩ := rfl

@[simp] theorem Vec2.smul_def (a : Vec2) (s : ℚ) : a * s = ⟨a.x * s, a.y * s⟩ := rfl

@[simp] theorem Vec3.subv_def (a b : Vec3) : a - b = ⟨a.x - b.x, a.y - b.y, a.z - b.z⟩ := rfl

theorem zoomCam_disabled (scroll : ℚ) (mnsp : Option Vec2) (cam : PanCam)
    (p : OrthographicProjection) (t : Transform) (hen : cam.enabled = false) :
    zoomCam scroll mnsp (cam, p, t) = (cam, p, t) := by
  simp [zoomCam, hen]

theorem zoomCam_fst (scroll : ℚ) (mnsp : Option Vec2) (item : ZoomItem) :
    (zoomCam scroll mnsp item).1 = item.1 := by
  obtain ⟨cam, p, t⟩ := item
  cases hen : cam.enabled with
  | false => simp [zoomCam, hen]
  | true =>
    cases mnsp with
    | none => simp [zoomCam, hen]
    | some m => cases hz : cam.zoom_to_cursor <;> simp [zoomCam, hen, hz]

theorem zoomCam_scale (scroll : ℚ) (mnsp : Option Vec2) (cam : PanCam)
    (p : OrthographicProjection) (t : Transform) (hen : cam.enabled = true) :
    (zoomCam scroll mnsp (cam, p, t)).2.1.scale = zoomedScale cam scroll p.scale := by
  cases mnsp with
  | none => simp [zoomCam, hen]
  | some m => cases hz : cam.zoom_to_cursor <;> simp [zoomCam, hen, hz]

theorem zoomCam_proj (scroll : ℚ) (mnsp : Option Vec2) (cam : PanCam)
    (p : OrthographicProjection) (t : Transform) (hen : cam.enabled = true) :
    (zoomCam scroll mnsp (cam, p, t)).2.1 =
      { p with scale := zoomedScale cam scroll p.scale } := by
  cases mnsp with
  | none => simp [zoomCam, hen]
  | some m => cases hz : cam.zoom_to_cursor <;> simp [zoomCam, hen, hz]

theorem zoomCam_cursor (scroll : ℚ) (m : Vec2) (cam : PanCam)
    (p : OrthographicProjection) (t : Transform)
    (hen : cam.enabled = true) (hz : cam.zoom_to_cursor = true) :
    zoomCam scroll (some m) (cam, p, t) =
      (cam, { p with scale := zoomedScale cam scroll p.scale },
        { t with translation :=
            ((t.translation.truncate + m * (⟨p.right, p.top⟩ : Vec2) * p.scale
              - m * (⟨p.right, p.top⟩ : Vec2)
                * zoomedScale cam scroll p.scale).extend t.translation.z) }) := by
  simp [zoomCam, hen, hz]

theorem zoomedScale_ge_min (cam : PanCam) (scroll s : ℚ)
    (hinv : ∀ M ∈ cam.max_scale, cam.min_scale ≤ M) :
    cam.min_scale ≤ zoomedScale cam scroll s := by
  unfold zoomedScale
  cases hM : cam.max_scale with
  | none => exact le_max_right _ _
  | some M =>
    exact le_min (le_max_right _ _) (hinv M (by simp [hM]))

theorem zoomedScale_le_max (cam : PanCam) (scroll s M : ℚ)
    (hM : cam.max_scale = some M) : zoomedScale cam scroll s ≤ M := by
  unfold zoomedScale
  rw [hM]
  exact min_le_right _ _

theorem zoomFrame_fst (ev : List MouseWheel) (w : Window) (item : ZoomItem) :
    (zoomFrame ev w item).1 = item.1 := by
  unfold zoomFrame
  by_cases h : scrollSum ev = 0
  · rw [if_pos h]
  · rw [if_neg h]
    exact zoomCam_fst _ _ _

theorem zoomFrame_scale_bounds (ev : List MouseWheel) (w : Window) (cam : PanCam)
    (p : OrthographicProjection) (t : Transform) (hen : cam.enabled = true)
    (hinv : ∀ M ∈ cam.max_scale, cam.min_scale ≤ M)
    (hlo : cam.min_scale ≤ p.scale) (hhi : ∀ M ∈ cam.max_scale, p.scale ≤ M) :
    cam.min_scale ≤ (zoomFrame ev w (cam, p, t)).2.1.scale ∧
      ∀ M ∈ cam.max_scale, (zoomFrame ev w (cam, p, t)).2.1.scale ≤ M := by
  unfold zoomFrame
  by_cases h : scrollSum ev = 0
  · rw [if_pos h]
    exact ⟨hlo, hhi⟩
  · rw [if_neg h]
    rw [zoomCam_scale _ _ _ _ _ hen]
    exact ⟨zoomedScale_ge_min _ _ _ hinv, fun M hM => zoomedScale_le_max _ _ _ M hM⟩

/-! ### Claims -/

/-- Claim C1, counterexample: with min_scale = 2, max_scale = some 1 and
old scale 1, an enabled zoom step yields scale 1 = max_scale, which is not
min_scale = 2, refuting the claim that the result equals min_scale. -/
theorem C1_counterexample :
    (zoomCam 1 none (camC1, projC1, tC1)).2.1.scale ≠ camC1.min_scale := by
  norm_num [zoomCam, zoomedScale, camC1, projC1, max_def, min_def]

/-- Claim C1 (amended): if max_scale is present and max_scale < min_scale,
then any zoom step on an enabled camera yields projection scale equal to
max_scale (the floor at min_scale is applied first, then the cap at
max_scale, so the cap wins). -/
theorem C1_misconfig_yields_max_scale (cam : PanCam) (p : OrthographicProjection)
    (t : Transform) (scroll : ℚ) (mnsp : Option Vec2) (M : ℚ)
    (hen : cam.enabled = true) (hM : cam.max_scale = some M)
    (hlt : M < cam.min_scale) :
    (zoomCam scroll mnsp (cam, p, t)).2.1.scale = M := by
  rw [zoomCam_scale _ _ _ _ _ hen]
  unfold zoomedScale
  rw [hM]
  exact min_eq_right (le_of_lt (lt_of_lt_of_le hlt (le_max_right _ _)))

/-- Witness for C1: the amended theorem applied to the concrete
misconfigured camera. -/
theorem C1_witness :
    camC1.enabled = true ∧ camC1.max_scale = some 1 ∧ (1 : ℚ) < camC1.min_scale ∧
    (zoomCam 1 none (camC1, projC1, tC1)).2.1.scale = 1 :=
  ⟨rfl, rfl, by norm_num [camC1],
    C1_misconfig_yields_max_scale camC1 projC1 tC1 1 none 1 rfl rfl
      (by norm_num [camC1])⟩

/-- Claim C2: for an enabled camera whose configuration satisfies the
documented invariant (min_scale is at most max_scale when the latter is
present) and whose scale starts within bounds, after any sequence of zoom
frames the projection scale stays within the min/max bounds. -/
theorem C2_zoom_clamped (cam : PanCam) (frames : List (List MouseWheel × Window)) :
    ∀ (p : OrthographicProjection) (t : Transform),
    cam.enabled = true →
    (∀ M ∈ cam.max_scale, cam.min_scale ≤ M) →
    cam.min_scale ≤ p.scale →
    (∀ M ∈ cam.max_scale, p.scale ≤ M) →
    cam.min_scale ≤ (runZoomFrames frames (cam, p, t)).2.1.scale ∧
      ∀ M ∈ cam.max_scale, (runZoomFrames frames (cam, p, t)).2.1.scale ≤ M := by
  induction frames with
  | nil => exact fun p t _ _ hlo hhi => ⟨hlo, hhi⟩
  | cons f fs ih =>
    intro p t hen hinv hlo hhi
    have hbounds := zoomFrame_scale_bounds f.1 f.2 cam p t hen hinv hlo hhi
    have hfst := zoomFrame_fst f.1 f.2 (cam, p, t)
    rcases hX : zoomFrame f.1 f.2 (cam, p, t) with ⟨c', p', t'⟩
    rw [hX] at hbounds hfst
    have hrun : runZoomFrames (f :: fs) (cam, p, t) = runZoomFrames fs (c', p', t') := by
      simp [runZoomFrames, hX]
    simp only [] at hfst
    rw [hrun, hfst]
    exact ih p' t' hen hinv hbounds.1 hbounds.2

/-- Witness for C2: the bounds hold concretely after two zoom frames on a
camera with min_scale 1/2 and max_scale 3 starting at scale 1. -/
theorem C2_witness :
    camC2.enabled = true ∧ (∀ M ∈ camC2.max_scale, camC2.min_scale ≤ M) ∧
    camC2.min_scale ≤ projC1.scale ∧ (∀ M ∈ camC2.max_scale, projC1.scale ≤ M) ∧
    (camC2.min_scale ≤ (runZoomFrames framesC2 (camC2, projC1, tC1)).2.1.scale ∧
      ∀ M ∈ camC2.max_scale, (runZoomFrames framesC2 (camC2, projC1, tC1)).2.1.scale ≤ M) :=
  ⟨rfl, by norm_num [camC2], by norm_num [camC2, projC1], by norm_num [camC2, projC1],
    C2_zoom_clamped camC2 framesC2 projC1 tC1 rfl (by norm_num [camC2])
      (by norm_num [camC2, projC1]) (by norm_num [camC2, projC1])⟩

/-- Claim C3, counterexample: an enabled camera already at min_scale = 1
with positive scroll keeps scale 1, so the claimed strict decrease fails. -/
theorem C3_counterexample :
    ¬ ((zoomCam 1 none (camC3, projC1, tC1)).2.1.scale < projC1.scale) := by
  norm_num [zoomCam, zoomedScale, camC3, projC1, max_def]

/-- Claim C3 (amended): for an enabled camera, positive summed scroll
strictly decreases the scale provided the old scale is strictly above
min_scale (with 0 < min_scale); negative summed scroll strictly increases
it provided the old scale is strictly below max_scale when present (with a
positive old scale); at the clamp boundary the scale can stay unchanged.
Zero summed scroll makes camera_zoom return the query untouched. -/
theorem C3_zoom_monotonic (cam : PanCam) (p : OrthographicProjection)
    (t : Transform) (scroll : ℚ) (mnsp : Option Vec2)
    (hen : cam.enabled = true) :
    (0 < scroll → 0 < cam.min_scale → cam.min_scale < p.scale →
      (zoomCam scroll mnsp (cam, p, t)).2.1.scale < p.scale) ∧
    (scroll < 0 → 0 < p.scale → (∀ M ∈ cam.max_scale, p.scale < M) →
      p.scale < (zoomCam scroll mnsp (cam, p, t)).2.1.scale) ∧
    (∀ (query : List ZoomItem) (evs : List MouseWheel) (w : Window),
      scrollSum evs = 0 → camera_zoom query evs w = query) := by
  refine ⟨fun hs hlo0 hlt => ?_, fun hs hps hM => ?_, fun query evs w h => ?_⟩
  · rw [zoomCam_scale _ _ _ _ _ hen]
    unfold zoomedScale
    have hps : 0 < p.scale := lt_trans hlo0 hlt
    have hx : p.scale * (1 + -scroll * (1 / 1000)) < p.scale := by
      have h1 : 1 + -scroll * (1 / 1000) < 1 := by linarith
      calc p.scale * (1 + -scroll * (1 / 1000)) < p.scale * 1 :=
            mul_lt_mul_of_pos_left h1 hps
        _ = p.scale := mul_one _
    have hmax : max (p.scale * (1 + -scroll * (1 / 1000))) cam.min_scale < p.scale :=
      max_lt hx hlt
    cases hMs : cam.max_scale with
    | none => exact hmax
    | some M => exact lt_of_le_of_lt (min_le_left _ _) hmax
  · rw [zoomCam_scale _ _ _ _ _ hen]
    unfold zoomedScale
    have hx : p.scale < p.scale * (1 + -scroll * (1 / 1000)) := by
      have h1 : 1 < 1 + -scroll * (1 / 1000) := by linarith
      calc p.scale = p.scale * 1 := (mul_one _).symm
        _ < p.scale * (1 + -scroll * (1 / 1000)) := mul_lt_mul_of_pos_left h1 hps
    cases hMs : cam.max_scale with
    | none => exact lt_of_lt_of_le hx (le_max_left _ _)
    | some M =>
      exact lt_min (lt_of_lt_of_le hx (le_max_left _ _)) (hM M (by simp [hMs]))
  · simp [camera_zoom, h]

/-- Witness for C3: strict decrease and increase hold concretely away from
the clamp boundary (min_scale 1, old scale 2, scroll plus or minus 100). -/
theorem C3_witness :
    (0 : ℚ) < 100 ∧ 0 < camC3.min_scale ∧ camC3.min_scale < projC3.scale ∧
    (zoomCam 100 none (camC3, projC3, tC1)).2.1.scale < projC3.scale ∧
    projC3.scale < (zoomCam (-100) none (camC3, projC3, tC1)).2.1.scale :=
  ⟨by norm_num, by norm_num [camC3], by norm_num [camC3, projC3],
    (C3_zoom_monotonic camC3 projC3 tC1 100 none rfl).1 (by norm_num)
      (by norm_num [camC3]) (by norm_num [camC3, projC3]),
    (C3_zoom_monotonic camC3 projC3 tC1 (-100) none rfl).2.1 (by norm_num)
      (by norm_num [projC3]) (by simp [camC3])⟩

/-- Claim C4: with zoom_to_cursor = true and a cursor at normalized
position m, one zoom step keeps the world point under the cursor fixed:
the world coordinate computed from the new translation, extents and the
new (clamped) scale equals the one computed from the old state. -/
theorem C4_zoom_to_cursor_fixed_point (cam : PanCam) (p : OrthographicProjection)
    (t : Transform) (scroll : ℚ) (m : Vec2)
    (hen : cam.enabled = true) (hz : cam.zoom_to_cursor = true) :
    (zoomCam scroll (some m) (cam, p, t)).2.2.translation.truncate
        + m * (⟨(zoomCam scroll (some m) (cam, p, t)).2.1.right,
               (zoomCam scroll (some m) (cam, p, t)).2.1.top⟩ : Vec2)
            * (zoomCam scroll (some m) (cam, p, t)).2.1.scale
      = t.translation.truncate + m * (⟨p.right, p.top⟩ : Vec2) * p.scale := by
  rw [zoomCam_cursor scroll m cam p t hen hz]
  simp only [Vec3.truncate, Vec2.extend, Vec2.add_def, Vec2.sub_def, Vec2.mul_def,
    Vec2.smul_def]
  refine congrArg₂ Vec2.mk ?_ ?_ <;> ring

/-- Witness for C4: the fixed-point identity at a concrete zoom step. -/
theorem C4_witness :
    (zoomCam 100 (some ⟨1/2, -1/3⟩) (camC4, projC6, tC6)).2.2.translation.truncate
        + (⟨1/2, -1/3⟩ : Vec2)
            * (⟨(zoomCam 100 (some ⟨1/2, -1/3⟩) (camC4, projC6, tC6)).2.1.right,
               (zoomCam 100 (some ⟨1/2, -1/3⟩) (camC4, projC6, tC6)).2.1.top⟩ : Vec2)
            * (zoomCam 100 (some ⟨1/2, -1/3⟩) (camC4, projC6, tC6)).2.1.scale
      = tC6.translation.truncate + (⟨1/2, -1/3⟩ : Vec2) * (⟨projC6.right, projC6.top⟩ : Vec2)
          * projC6.scale :=
  C4_zoom_to_cursor_fixed_point camC4 projC6 tC6 100 ⟨1/2, -1/3⟩ rfl rfl

/-- Claim C5: for an enabled camera with a grab button pressed, the pan
update subtracts delta times the per-axis scaling factor (window size over
projection extent, times scale) from the translation; concretely a drag
from (100,100) to (110,105) at scale 1 with symmetric 800x600 extents
shifts the translation by (-10, -5, 0). -/
theorem C5_pan_subtracts_scaled_delta (w : Window) (pressed : List MouseButton)
    (delta : Vec2) (cam : PanCam) (tr : Transform) (proj : OrthographicProjection)
    (hen : cam.enabled = true)
    (hgrab : cam.grab_buttons.any (fun btn => pressed.contains btn) = true) :
    panCam w pressed delta (cam, tr, proj) =
      (cam,
        { tr with translation := tr.translation -
            (delta * ((⟨w.width / (proj.right - proj.left),
                       w.height / (proj.top - proj.bottom)⟩ : Vec2)
              * proj.scale)).extend 0 },
        proj) ∧
    camera_movement wC5 [MouseButton.Left]
        [(PanCam.default, ⟨⟨0, 0, 0⟩⟩, projC6)] (some ⟨100, 100⟩)
      = ([(PanCam.default, ⟨⟨-10, -5, 0⟩⟩, projC6)], some ⟨110, 105⟩) := by
  constructor
  · have hb : (cam.enabled && cam.grab_buttons.any fun btn => pressed.contains btn)
        = true := by
      rw [hen, Bool.true_and]
      exact hgrab
    simp only [panCam, hb]
    simp
  · norm_num [camera_movement, panCam, PanCam.default, projC6, wC5, Vec2.extend,
      List.any, List.contains, beq_iff_eq]

/-- Witness for C5: the general pan equation at the scenario input. -/
theorem C5_witness :
    panCam wC5 [MouseButton.Left] ⟨10, 5⟩ (PanCam.default, ⟨⟨0, 0, 0⟩⟩, projC6)
      = (PanCam.default,
          { translation := (⟨⟨0, 0, 0⟩⟩ : Transform).translation -
              ((⟨10, 5⟩ : Vec2) * ((⟨wC5.width / (projC6.right - projC6.left),
                 wC5.height / (projC6.top - projC6.bottom)⟩ : Vec2)
                * projC6.scale)).extend 0 },
          projC6) :=
  (C5_pan_subtracts_scaled_delta wC5 [MouseButton.Left] ⟨10, 5⟩ PanCam.default
    ⟨⟨0, 0, 0⟩⟩ projC6 rfl (by decide)).1

/-- Claim C6: line scroll events are converted at 100 pixels per line
before summing with pixel events; the zoom applies
new = old * (1 + -scroll/1000), exactly when the clamp is inactive; and
concretely one +1-line scroll on an 800x600 window with the cursor at
(400,300) yields scale 9/10 with the translation unchanged. -/
theorem C6_scroll_normalization_and_sensitivity :
    (∀ (y : ℚ) (rest : List MouseWheel),
      scrollSum (⟨MouseScrollUnit.Line, y⟩ :: rest) = y * 100 + scrollSum rest ∧
      scrollSum (⟨MouseScrollUnit.Pixel, y⟩ :: rest) = y + scrollSum rest) ∧
    (∀ (cam : PanCam) (p : OrthographicProjection) (t : Transform) (scroll : ℚ)
        (mnsp : Option Vec2),
      cam.enabled = true →
      cam.min_scale ≤ p.scale * (1 + -scroll * (1 / 1000)) →
      (∀ M ∈ cam.max_scale, p.scale * (1 + -scroll * (1 / 1000)) ≤ M) →
      (zoomCam scroll mnsp (cam, p, t)).2.1.scale
        = p.scale * (1 + -scroll * (1 / 1000))) ∧
    camera_zoom [(PanCam.default, projC6, tC6)] [⟨MouseScrollUnit.Line, 1⟩] wC6
      = [(PanCam.default, { projC6 with scale := 9 / 10 }, tC6)] := by
  refine ⟨fun y rest => ⟨?_, ?_⟩, fun cam p t scroll mnsp hen hlo hhi => ?_, ?_⟩
  · simp [scrollSum, pixels_per_line]
  · simp [scrollSum]
  · rw [zoomCam_scale _ _ _ _ _ hen]
    unfold zoomedScale
    cases hMs : cam.max_scale with
    | none => exact max_eq_left hlo
    | some M =>
      rw [show (max (p.scale * (1 + -scroll * (1 / 1000))) cam.min_scale)
            = p.scale * (1 + -scroll * (1 / 1000)) from max_eq_left hlo]
      exact min_eq_left (hhi M (by simp [hMs]))
  · norm_num [camera_zoom, zoomCam, zoomedScale, scrollSum, pixels_per_line,
      mouseNormalizedScreenPos, PanCam.default, projC6, tC6, wC6, max_def, min_def,
      Vec2.one, Vec3.truncate, Vec2.extend]

/-- Witness for C6: the exact sensitivity formula at a concrete in-bounds
zoom step (default settings, old scale 1, summed scroll 100). -/
theorem C6_witness :
    PanCam.default.min_scale ≤ projC6.scale * (1 + -(100 : ℚ) * (1 / 1000)) ∧
    (zoomCam 100 none (PanCam.default, projC6, tC6)).2.1.scale
      = projC6.scale * (1 + -(100 : ℚ) * (1 / 1000)) :=
  ⟨by norm_num [PanCam.default, projC6],
    C6_scroll_normalization_and_sensitivity.2.1 PanCam.default projC6 tC6 100 none
      rfl (by norm_num [PanCam.default, projC6]) (by simp [PanCam.default])⟩

/-- Claim C7: a camera whose settings are disabled is left untouched by
both the zoom loop body and the pan loop body, for any input. -/
theorem C7_disabled_camera_invariant (cam : PanCam) (hdis : cam.enabled = false) :
    (∀ (scroll : ℚ) (mnsp : Option Vec2) (p : OrthographicProjection) (t : Transform),
      zoomCam scroll mnsp (cam, p, t) = (cam, p, t)) ∧
    (∀ (w : Window) (pressed : List MouseButton) (delta : Vec2) (tr : Transform)
        (proj : OrthographicProjection),
      panCam w pressed delta (cam, tr, proj) = (cam, tr, proj)) := by
  refine ⟨fun scroll mnsp p t => zoomCam_disabled scroll mnsp cam p t hdis,
    fun w pressed delta tr proj => ?_⟩
  simp [panCam, hdis]

/-- Witness for C7: the disabled default camera is untouched by a concrete
zoom and a concrete pan. -/
theorem C7_witness :
    zoomCam 7 (some ⟨1, 0⟩) (camC7, projC6, tC6) = (camC7, projC6, tC6) ∧
    panCam wC5 [MouseButton.Left] ⟨3, 4⟩ (camC7, tC6, projC6) = (camC7, tC6, projC6) :=
  ⟨(C7_disabled_camera_invariant camC7 rfl).1 7 (some ⟨1, 0⟩) projC6 tC6,
    (C7_disabled_camera_invariant camC7 rfl).2 wC5 [MouseButton.Left] ⟨3, 4⟩ tC6 projC6⟩

/-- Claim C8: when a cursor position is available, the pan update ends by
remembering it as the previous position regardless of camera state; when
no cursor position is available it returns with cameras and memory
unchanged. -/
theorem C8_previous_position_memory (w : Window) (pressed : List MouseButton)
    (query : List MoveItem) (last_pos : Option Vec2) :
    (∀ cp : Vec2, w.cursor_position = some cp →
      (camera_movement w pressed query last_pos).2 = some cp) ∧
    (w.cursor_position = none →
      camera_movement w pressed query last_pos = (query, last_pos)) := by
  constructor
  · intro cp h
    simp [camera_movement, h]
  · intro h
    simp [camera_movement, h]

/-- Witness for C8: concrete windows with and without a cursor position. -/
theorem C8_witness :
    (camera_movement wC5 [] [] none).2 = some ⟨110, 105⟩ ∧
    camera_movement wC8 [] [] (some ⟨1, 2⟩) = ([], some ⟨1, 2⟩) :=
  ⟨(C8_previous_position_memory wC5 [] [] none).1 ⟨110, 105⟩ rfl,
    (C8_previous_position_memory wC8 [] [] (some ⟨1, 2⟩)).2 rfl⟩

/-- Claim C9: with no primary window, the pan update panics (models the
unguarded unwrap as none), and the zoom update panics whenever the summed
scroll is nonzero while returning normally when it is zero. -/
theorem C9_missing_primary_window_is_fatal (pressed : List MouseButton)
    (queryM : List MoveItem) (queryZ : List ZoomItem) (last_pos : Option Vec2)
    (evs : List MouseWheel) :
    camera_movementRun none pressed queryM last_pos false = none ∧
    (scrollSum evs ≠ 0 → camera_zoomRun queryZ evs none false = none) ∧
    (scrollSum evs = 0 → camera_zoomRun queryZ evs none false = some queryZ) := by
  refine ⟨rfl, fun h => ?_, fun h => ?_⟩
  · simp [camera_zoomRun, h]
  · simp [camera_zoomRun, h]

/-- Witness for C9: a single one-pixel scroll event has nonzero sum, so
the zoom panics on a missing window; the pan panics unconditionally. -/
theorem C9_witness :
    camera_movementRun none [] [] none false = none ∧
    camera_zoomRun [] [⟨MouseScrollUnit.Pixel, 1⟩] none false = none :=
  ⟨(C9_missing_primary_window_is_fatal [] [] [] none []).1,
    (C9_missing_primary_window_is_fatal [] [] [] none [⟨MouseScrollUnit.Pixel, 1⟩]).2.1
      (by norm_num [scrollSum])⟩

/-- Claim C10: the pan loop body never modifies the projection, leaves the
camera settings alone, and leaves the z component of the translation
unchanged, for every camera and input. -/
theorem C10_pan_touches_only_xy (w : Window) (pressed : List MouseButton)
    (delta : Vec2) (cam : PanCam) (tr : Transform) (proj : OrthographicProjection) :
    (panCam w pressed delta (cam, tr, proj)).2.2 = proj ∧
    (panCam w pressed delta (cam, tr, proj)).2.1.translation.z = tr.translation.z ∧
    (panCam w pressed delta (cam, tr, proj)).1 = cam := by
  cases hb : (cam.enabled && cam.grab_buttons.any fun btn => pressed.contains btn) with
  | true =>
    simp only [panCam, hb]
    simp [Vec2.extend]
  | false =>
    simp only [panCam, hb]
    simp

end BevyPanCam
